import Mathlib

/-!
Verification of the Teletraan desktop backend supervisor
(`src/desktop/src-tauri/src/lib.rs`): a shallow embedding of the
health-check loop, the output-capture reader threads, `stop_backend`
and `check_backend_health`, with theorems about their behaviour.
-/

namespace Teletraan

/-- Subset of the backend health check JSON response
(`struct HealthResponse { status: String }`). -/
structure HealthResponse where
  status : String
deriving DecidableEq, Repr

/-- Outcome of one HTTP probe (`client.get(health_url).send().await`
followed by the body parse): a request error, or a response carrying
its HTTP-success flag and the body parsed as `HealthResponse`
(`none` when the body is missing or unparseable). -/
inductive ProbeResult where
  | reqErr (e : String)
  | resp (isSuccess : Bool) (body : Option HealthResponse)
deriving DecidableEq, Repr

/-- One iteration of the health-check loop in `start_backend`:
returns `true` exactly when the code emits `backend-ready` and
returns (HTTP success, body parses, `body.status == "healthy"`);
in every other case the loop falls through to the sleep and the
next attempt. -/
def probeStep (r : ProbeResult) : Bool :=
  match r with
  | .resp true (some body) => body.status == "healthy"
  | .resp true none => false
  | .resp false _ => false
  | .reqErr _ => false

/-- Events emitted through the Tauri event bus by the health task
(`app_for_health.emit("backend-ready", ())` /
`app_for_health.emit("backend-error", msg)`). -/
inductive ReadyEvent where
  | backendReady
  | backendError (msg : String)
deriving DecidableEq, Repr

/-- Observable trace of one run of the health-check task: how many
probes were issued, which readiness events were emitted, and which
pids were killed (the task body never touches the child handle, so
`kills` is empty in every branch of the source). -/
structure LoopRun where
  probes : Nat
  events : List ReadyEvent
  kills : List Nat
deriving DecidableEq, Repr

/-- `let max_attempts: u32 = 300;` in `start_backend`. -/
def maxAttempts : Nat := 300

/-- `let interval = Duration::from_millis(500);` in `start_backend`. -/
def intervalMs : Nat := 500

/-- The literal emitted with `backend-error` after the loop
exhausts its attempts. -/
def timeoutMessage : String := "Backend did not become healthy within 150s"

/-- The `for attempt in 1..=max_attempts` loop of `start_backend`,
parameterised by the probe outcome of each attempt. Fuel counts the
remaining attempts; when it reaches zero the code logs and emits
`backend-error` with the timeout message. A successful healthy probe
emits `backend-ready` and returns immediately. -/
def healthLoop (probes : Nat → ProbeResult) : Nat → Nat → LoopRun
  | 0, _ => ⟨0, [.backendError timeoutMessage], []⟩
  | n+1, attempt =>
    if probeStep (probes attempt) then ⟨1, [.backendReady], []⟩
    else
      let rest := healthLoop probes n (attempt + 1)
      ⟨rest.probes + 1, rest.events, rest.kills⟩

/-- The whole spawned health task: building the `reqwest` client can
fail, in which case the task logs and returns without probing or
emitting anything; otherwise it runs the loop from attempt 1 with the
configured budget. -/
def healthTask (build : Except String Unit) (probes : Nat → ProbeResult) : LoopRun :=
  match build with
  | .error _ => ⟨0, [], []⟩
  | .ok _ => healthLoop probes maxAttempts 1

/-- Handle to the spawned backend child process (the part of
`std::process::Child` the supervisor observes). -/
structure Child where
  pid : Nat
deriving DecidableEq, Repr

/-- `stop_backend`: takes the child out of the `Mutex<Option<Child>>`
slot; if one was stored, kills it (and waits). Returns the new slot
contents together with the list of pids that were killed. -/
def stop_backend (slot : Option Child) : Option Child × List Nat :=
  match slot with
  | none => (none, [])
  | some c => (none, [c.pid])

/-- A message forwarded to the structured log sink (the `log` crate)
by a reader thread, at the severity the source uses. -/
inductive SinkMsg where
  | info (s : String)
  | error (s : String)
  | warn (s : String)
deriving DecidableEq, Repr

/-- Observable output of one reader thread: the sink messages it
forwarded and the lines it appended to the log file. -/
structure CaptureRun where
  sink : List SinkMsg
  file : List String
deriving DecidableEq, Repr

/-- The `for line in reader.lines()` loop of `spawn_output_reader`.
Each element of the input is one `io::Result<String>` yielded by
`BufRead::lines`: `Except.ok text` for a decoded line, `Except.error e`
for a read error (which is what an invalid UTF-8 byte sequence
produces). On `Ok` the line goes to the sink (error severity for the
stderr label, info otherwise) and is appended as `"[label] text"`;
on `Err` the code logs a warning and BREAKS out of the loop. -/
def readerLoop (label : String) : List (Except String String) → CaptureRun
  | [] => ⟨[], []⟩
  | .ok text :: rest =>
    let r := readerLoop label rest
    ⟨(if label == "stderr" then
        SinkMsg.error ("[backend " ++ label ++ "] " ++ text)
      else
        SinkMsg.info ("[backend " ++ label ++ "] " ++ text)) :: r.sink,
     ("[" ++ label ++ "] " ++ text) :: r.file⟩
  | .error e :: _ =>
    ⟨[SinkMsg.warn ("Error reading backend " ++ label ++ ": " ++ e)], []⟩

/-- `spawn_output_reader`: the thread first opens the log file in
append/create mode; if the open FAILS it logs one error and RETURNS
(no line of the stream is forwarded anywhere); otherwise it runs the
line loop. -/
def spawn_output_reader (openResult : Except String Unit) (label : String)
    (lines : List (Except String String)) : CaptureRun :=
  match openResult with
  | .error e => ⟨[SinkMsg.error ("Failed to open backend log file: " ++ e)], []⟩
  | .ok _ => readerLoop label lines

/-- The command configuration `start_backend` builds for the child
process (`StdCommand::new(&backend_bin).args(...)...`). -/
structure SpawnConfig where
  program : String
  args : List String
  currentDir : String
  envSets : List (String × String)
  envRemoves : List String
  stdoutPiped : Bool
  stderrPiped : Bool
deriving DecidableEq, Repr

/-- The exact builder chain of `start_backend` (lines 82-91 of the
source), parameterised by the resolved binary path, data directory
and constructed `DATABASE_URL`. -/
def buildBackendCommand (backendBin dataDir databaseUrl : String) : SpawnConfig :=
  { program := backendBin
    args := ["--host", "127.0.0.1", "--port", "8000"]
    currentDir := dataDir
    envSets := [("DATABASE_URL", databaseUrl)]
    envRemoves := ["CLAUDECODE", "CLAUDE_CODE_ENTRYPOINT"]
    stdoutPiped := true
    stderrPiped := true }

/-- `Command::env(k, v)`: override semantics — any ambient binding of
`k` is replaced by `v`. -/
def setEnvVar (env : List (String × String)) (k v : String) : List (String × String) :=
  env.filter (fun p => p.1 ≠ k) ++ [(k, v)]

/-- `Command::env_remove(k)`: drop every binding of `k`. -/
def removeEnvVar (env : List (String × String)) (k : String) : List (String × String) :=
  env.filter (fun p => p.1 ≠ k)

/-- The child's environment as the builder chain constructs it from
the ambient environment: `.env("DATABASE_URL", url)`,
`.env_remove("CLAUDECODE")`, `.env_remove("CLAUDE_CODE_ENTRYPOINT")`,
applied in source order. -/
def spawnEnv (ambient : List (String × String)) (databaseUrl : String) :
    List (String × String) :=
  removeEnvVar
    (removeEnvVar (setEnvVar ambient "DATABASE_URL" databaseUrl) "CLAUDECODE")
    "CLAUDE_CODE_ENTRYPOINT"

/-- `check_backend_health`: builds a client (an `Err` there is mapped
to `Err(format!("{e}"))` and propagated), then probes once; a request
error maps to `Ok(false)`, a response maps to `Ok(status.is_success())`
without looking at the body. -/
def check_backend_health (build : Except String Unit) (r : ProbeResult) :
    Except String Bool :=
  match build with
  | .error e => .error e
  | .ok _ =>
    match r with
    | .resp s _ => .ok s
    | .reqErr _ => .ok false

theorem healthLoop_events_shape (probes : Nat → ProbeResult) :
    ∀ n a, (healthLoop probes n a).events = [ReadyEvent.backendReady] ∨
      (healthLoop probes n a).events = [ReadyEvent.backendError timeoutMessage]
  | 0, _ => Or.inr rfl
  | n+1, a => by
    cases h : probeStep (probes a) with
    | true => simp [healthLoop, h]
    | false =>
      simp only [healthLoop, h, if_neg Bool.false_ne_true]
      exact healthLoop_events_shape probes n (a + 1)

theorem healthLoop_allfail (probes : Nat → ProbeResult)
    (h : ∀ a, probeStep (probes a) = false) :
    ∀ n a, healthLoop probes n a =
      ⟨n, [ReadyEvent.backendError timeoutMessage], []⟩
  | 0, _ => rfl
  | n+1, a => by
    simp only [healthLoop, h a, if_neg Bool.false_ne_true,
      healthLoop_allfail probes h n (a + 1)]

theorem healthLoop_ready_iff (probes : Nat → ProbeResult) :
    ∀ n a, ReadyEvent.backendReady ∈ (healthLoop probes n a).events ↔
      ∃ k, k < n ∧ probeStep (probes (a + k)) = true
  | 0, a => by simp [healthLoop]
  | n+1, a => by
    cases h : probeStep (probes a) with
    | true =>
      refine ⟨fun _ => ⟨0, Nat.succ_pos n, by simpa using h⟩, fun _ => ?_⟩
      simp [healthLoop, h]
    | false =>
      simp only [healthLoop, h, if_neg Bool.false_ne_true]
      rw [healthLoop_ready_iff probes n (a + 1)]
      constructor
      · rintro ⟨k, hk, hp⟩
        exact ⟨k + 1, by omega, by rwa [show a + (k + 1) = a + 1 + k by omega]⟩
      · rintro ⟨k, hk, hp⟩
        match k with
        | 0 => rw [Nat.add_zero] at hp; rw [h] at hp; exact absurd hp Bool.false_ne_true
        | j + 1 =>
          exact ⟨j, by omega, by rwa [show a + 1 + j = a + (j + 1) by omega]⟩

/-- Claim C1: in every probe iteration of the health-check loop, a
request error, a non-success status, an unparseable body, or a status
other than "healthy" leaves the prober polling (the events of the
iteration are exactly those of the remaining loop, no ready event is
added), and the ready event is emitted, stopping the loop, exactly
when some probe returns HTTP success with parsed status "healthy". -/
theorem health_ready_only_on_healthy (probes : Nat → ProbeResult)
    (n attempt : Nat) (r : ProbeResult) :
    ((healthLoop probes (n+1) attempt).events =
      if probeStep (probes attempt) then [ReadyEvent.backendReady]
      else (healthLoop probes n (attempt+1)).events) ∧
    (probeStep r = true ↔
      ∃ body, r = ProbeResult.resp true (some body) ∧ body.status = "healthy") ∧
    (ReadyEvent.backendReady ∈ (healthLoop probes n attempt).events ↔
      ∃ k, k < n ∧ probeStep (probes (attempt + k)) = true) := by
  refine ⟨?_, ?_, healthLoop_ready_iff probes n attempt⟩
  · cases h : probeStep (probes attempt) with
    | true => simp [healthLoop, h]
    | false => simp [healthLoop, h]
  · cases r with
    | reqErr e => simp [probeStep]
    | resp s body =>
      cases s with
      | false => simp [probeStep]
      | true =>
        cases body with
        | none => simp [probeStep]
        | some b =>
          simp only [probeStep, beq_iff_eq]
          constructor
          · intro hb
            exact ⟨b, rfl, hb⟩
          · rintro ⟨b', hb', hs⟩
            cases hb'
            exact hs

/-- Claim C2: any run of the health-check loop emits exactly one
terminal readiness outcome — a single backend-ready event or a single
backend-error event, never both and never more than one. -/
theorem health_exactly_one_outcome (probes : Nat → ProbeResult) :
    (healthTask (Except.ok ()) probes).events.length = 1 ∧
    ((healthTask (Except.ok ()) probes).events = [ReadyEvent.backendReady] ∨
     (healthTask (Except.ok ()) probes).events =
       [ReadyEvent.backendError timeoutMessage]) := by
  have h := healthLoop_events_shape probes maxAttempts 1
  refine ⟨?_, h⟩
  have he : healthTask (Except.ok ()) probes = healthLoop probes maxAttempts 1 := rfl
  rcases h with h | h
  · rw [he, h]
    rfl
  · rw [he, h]
    rfl

/-- Claim C3: stop is idempotent on the single-slot process state:
stopping with an empty slot changes nothing and kills nothing, the
first stop clears the slot and kills at most one process, and a
second consecutive stop is a no-op. -/
theorem stop_backend_idempotent (s : Option Child) :
    stop_backend none = (none, []) ∧
    (stop_backend s).1 = none ∧
    stop_backend (stop_backend s).1 = (none, []) ∧
    (stop_backend s).2.length ≤ 1 := by
  cases s with
  | none => exact ⟨rfl, rfl, rfl, by simp [stop_backend]⟩
  | some c => exact ⟨rfl, rfl, rfl, by simp [stop_backend]⟩

/-- Claim C5: for a health endpoint that never reports healthy, the
loop performs exactly the configured 300 attempts, emits exactly one
backend-error event whose message states the elapsed 150-second
timeout (300 attempts times the 500 ms interval), and kills no
process. -/
theorem health_timeout_run (probes : Nat → ProbeResult)
    (h : ∀ a, probeStep (probes a) = false) :
    healthTask (Except.ok ()) probes =
      ⟨maxAttempts, [ReadyEvent.backendError timeoutMessage], []⟩ ∧
    maxAttempts = 300 ∧
    timeoutMessage =
      "Backend did not become healthy within " ++
        toString (maxAttempts * intervalMs / 1000) ++ "s" := by
  refine ⟨?_, rfl, by decide⟩
  exact healthLoop_allfail probes h maxAttempts 1

/-- Witness for C5 at an endpoint that always refuses the connection. -/
theorem health_timeout_run_witness :
    (∀ a, probeStep ((fun (_ : Nat) => ProbeResult.reqErr "connection refused") a)
      = false) ∧
    healthTask (Except.ok ())
        (fun (_ : Nat) => ProbeResult.reqErr "connection refused") =
      ⟨maxAttempts, [ReadyEvent.backendError timeoutMessage], []⟩ :=
  ⟨fun _ => rfl,
   (health_timeout_run (fun (_ : Nat) => ProbeResult.reqErr "connection refused")
     (fun _ => rfl)).1⟩

/-- Counterexample to claim C4: on an invalid byte sequence the
reader does not replace and forward the line — it logs one warning
and stops, so a following valid line never reaches the sink or the
file. -/
theorem readerLoop_invalid_aborts_cex :
    readerLoop "stdout"
        [Except.error "stream did not contain valid UTF-8",
         Except.ok "next line"] =
      ⟨[SinkMsg.warn
          "Error reading backend stdout: stream did not contain valid UTF-8"],
       []⟩ ∧
    "[stdout] next line" ∉ (readerLoop "stdout"
        [Except.error "stream did not contain valid UTF-8",
         Except.ok "next line"]).file := by
  constructor
  · rfl
  · simp [readerLoop]

/-- Claim C4 as amended: a read error (such as an invalid byte
sequence) makes the reader log one warning and stop capturing the
stream; the erroneous line and all lines after it are dropped, while
the valid lines before it are forwarded and appended in order. -/
theorem readerLoop_error_stops_capture (label : String) (pre : List String)
    (e : String) (post : List (Except String String)) :
    readerLoop label (pre.map Except.ok ++ Except.error e :: post) =
      ⟨(pre.map fun t =>
          if label == "stderr" then
            SinkMsg.error ("[backend " ++ label ++ "] " ++ t)
          else
            SinkMsg.info ("[backend " ++ label ++ "] " ++ t)) ++
        [SinkMsg.warn ("Error reading backend " ++ label ++ ": " ++ e)],
       pre.map fun t => "[" ++ label ++ "] " ++ t⟩ := by
  induction pre with
  | nil => rfl
  | cons t ts ih => simp [readerLoop, ih]

/-- Claim C6: a stream of N valid lines yields exactly N log-file
entries and N sink messages for that stream, in input order, none
dropped or duplicated. -/
theorem readerLoop_preserves_lines (label : String) (texts : List String) :
    (readerLoop label (texts.map Except.ok)).file =
      texts.map (fun t => "[" ++ label ++ "] " ++ t) ∧
    (readerLoop label (texts.map Except.ok)).sink =
      texts.map (fun t =>
        if label == "stderr" then
          SinkMsg.error ("[backend " ++ label ++ "] " ++ t)
        else
          SinkMsg.info ("[backend " ++ label ++ "] " ++ t)) := by
  induction texts with
  | nil => exact ⟨rfl, rfl⟩
  | cons t ts ih =>
    refine ⟨?_, ?_⟩ <;> simp [readerLoop, ih.1, ih.2]

/-- Counterexample to claim C7: when opening the log file fails, the
reader thread returns immediately — subsequent lines of the stream
are NOT forwarded to the structured log sink. -/
theorem open_failure_drops_lines_cex :
    spawn_output_reader (Except.error "Permission denied") "stdout"
        [Except.ok "hello"] =
      ⟨[SinkMsg.error "Failed to open backend log file: Permission denied"],
       []⟩ ∧
    SinkMsg.info "[backend stdout] hello" ∉
      (spawn_output_reader (Except.error "Permission denied") "stdout"
        [Except.ok "hello"]).sink := by
  constructor
  · rfl
  · simp [spawn_output_reader]

/-- Claim C7 as amended: if opening the log file fails, the reader
logs a single open-failure error to the sink and exits, forwarding
and appending none of the stream's lines (it does not crash, but it
does not degrade to sink-only logging either); when the open
succeeds, capture proceeds through the normal line loop. -/
theorem spawn_output_reader_open_failure (e label : String)
    (lines : List (Except String String)) :
    spawn_output_reader (Except.error e) label lines =
      ⟨[SinkMsg.error ("Failed to open backend log file: " ++ e)], []⟩ ∧
    spawn_output_reader (Except.ok ()) label lines = readerLoop label lines :=
  ⟨rfl, rfl⟩

/-- Claim C8: once its client is built, check_backend_health never
returns an error for any probe outcome: a request failure maps to
Ok false and a received response maps to Ok of its HTTP-success
flag. -/
theorem check_backend_health_never_errors (r : ProbeResult) :
    (∃ b, check_backend_health (Except.ok ()) r = Except.ok b) ∧
    (∀ e, check_backend_health (Except.ok ()) (ProbeResult.reqErr e) =
      Except.ok false) ∧
    (∀ s body, check_backend_health (Except.ok ()) (ProbeResult.resp s body) =
      Except.ok s) := by
  refine ⟨?_, fun e => rfl, fun s body => rfl⟩
  cases r with
  | reqErr e => exact ⟨false, rfl⟩
  | resp s body => exact ⟨s, rfl⟩

/-- Claim C10: every HTTP-success response makes check_backend_health
return Ok true regardless of the body; in particular a body with
status "starting" yields Ok true while the prober's readiness test
rejects it, so reachability is strictly weaker than readiness. -/
theorem reachability_weaker_than_readiness (body : Option HealthResponse) :
    check_backend_health (Except.ok ()) (ProbeResult.resp true body) =
      Except.ok true ∧
    check_backend_health (Except.ok ())
        (ProbeResult.resp true (some ⟨"starting"⟩)) = Except.ok true ∧
    probeStep (ProbeResult.resp true (some ⟨"starting"⟩)) = false :=
  ⟨rfl, rfl, by decide⟩

theorem lookup_removeEnvVar_self (env : List (String × String)) (k : String) :
    (removeEnvVar env k).lookup k = none := by
  induction env with
  | nil => rfl
  | cons p l ih =>
    by_cases h : p.1 = k
    · rw [show removeEnvVar (p :: l) k = removeEnvVar l k by
        simp [removeEnvVar, List.filter_cons, h]]
      exact ih
    · rw [show removeEnvVar (p :: l) k = p :: removeEnvVar l k by
        simp [removeEnvVar, List.filter_cons, h]]
      have hb : (k == p.1) = false := beq_eq_false_iff_ne.mpr (Ne.symm h)
      simpa only [List.lookup, hb] using ih

theorem lookup_removeEnvVar_other (env : List (String × String))
    (k k' : String) (h : k' ≠ k) :
    (removeEnvVar env k).lookup k' = env.lookup k' := by
  induction env with
  | nil => rfl
  | cons p l ih =>
    by_cases hp : p.1 = k
    · rw [show (removeEnvVar (p :: l) k) = removeEnvVar l k by
        simp [removeEnvVar, List.filter_cons, hp], ih]
      have : (k' == p.1) = false := by
        rw [beq_eq_false_iff_ne]
        rw [hp]
        exact h
      simp [List.lookup, this]
    · rw [show (removeEnvVar (p :: l) k) = p :: removeEnvVar l k by
        simp [removeEnvVar, List.filter_cons, hp]]
      by_cases hk : k' = p.1
      · simp [List.lookup, hk]
      · have : (k' == p.1) = false := beq_eq_false_iff_ne.mpr hk
        simp [List.lookup, this, ih]

theorem lookup_setEnvVar_self (env : List (String × String)) (k v : String) :
    (setEnvVar env k v).lookup k = some v := by
  induction env with
  | nil => simp [setEnvVar, List.lookup]
  | cons p l ih =>
    by_cases hp : p.1 = k
    · simpa [setEnvVar, List.filter_cons, hp] using ih
    · rw [show setEnvVar (p :: l) k v = p :: setEnvVar l k v by
        simp [setEnvVar, List.filter_cons, hp]]
      have : (k == p.1) = false := beq_eq_false_iff_ne.mpr (Ne.symm hp)
      simp [List.lookup, this, ih]

/-- Claim C9: the spawned command carries exactly the arguments
--host 127.0.0.1 --port 8000, runs in the resolved data directory
with piped stdout and stderr, and its environment defines
DATABASE_URL while CLAUDECODE and CLAUDE_CODE_ENTRYPOINT are removed,
whatever the ambient environment contained. -/
theorem spawn_contract (backendBin dataDir databaseUrl : String)
    (ambient : List (String × String)) :
    (buildBackendCommand backendBin dataDir databaseUrl).args =
        ["--host", "127.0.0.1", "--port", "8000"] ∧
    (buildBackendCommand backendBin dataDir databaseUrl).currentDir = dataDir ∧
    (buildBackendCommand backendBin dataDir databaseUrl).stdoutPiped = true ∧
    (buildBackendCommand backendBin dataDir databaseUrl).stderrPiped = true ∧
    (spawnEnv ambient databaseUrl).lookup "DATABASE_URL" = some databaseUrl ∧
    (spawnEnv ambient databaseUrl).lookup "CLAUDECODE" = none ∧
    (spawnEnv ambient databaseUrl).lookup "CLAUDE_CODE_ENTRYPOINT" = none := by
  refine ⟨rfl, rfl, rfl, rfl, ?_, ?_, ?_⟩
  · rw [spawnEnv, lookup_removeEnvVar_other _ _ _ (by decide),
      lookup_removeEnvVar_other _ _ _ (by decide),
      lookup_setEnvVar_self]
  · rw [spawnEnv, lookup_removeEnvVar_other _ _ _ (by decide),
      lookup_removeEnvVar_self]
  · rw [spawnEnv, lookup_removeEnvVar_self]

end Teletraan
